import Mathlib

/-!
Verification of the SIMBIoTA on-access antivirus daemon (simbiota/simbiota).

Shallow embedding of the access-decision pipeline:
* the compare-against-all hash detector (client-lib/src/api/hash.rs,
  client-lib/src/detector/tlsh_detector.rs),
* the stat-fingerprint detection cache (simbiota/src/memory_detection_cache.rs),
* the decision worker callback (simbiota/src/detection_system.rs),
* the fanotify event loop and responder (fanotify-monitor/src/low_level/low_level_linux.rs),
* the quarantine store (simbiota/src/quarantine.rs).

Rust panics are modelled as `Except.error` with the panic message; machine
integers are modelled as Nat / Int with explicit wrapping where a cast occurs.
The TLSH hash internals are opaque: the inner hash value is an abstract type
and `TLSH::diff` is a parameter function.
-/

namespace Simbiota

/-- DetectionResult from client-lib/src/api/detector.rs. -/
inductive DetectionResult where
  | Match
  | NoMatch
deriving DecidableEq, Repr

/-- FanotifyEventResponse from fanotify-monitor/src/lib.rs. -/
inductive FanotifyEventResponse where
  | Allow
  | Deny
deriving DecidableEq, Repr

/-! ## TLSH hashes and the signature database views
    (client-lib/src/detector/tlsh_detector.rs) -/

/-- ComparableTLSHHash: an opaque inner TLSH value of type tau together with
the per-entry detection distance (u8, 0 when not set, as in the legacy
format and freshly computed hashes). -/
structure ComparableTLSHHash (tau : Type) where
  inner : tau
  detection_distance : Nat
deriving DecidableEq, Repr

/-- ComparableTLSHHash::detection_distance: panics with
"detection distance not set" when the stored distance is 0. -/
def ComparableTLSHHash.detectionDistance {tau : Type} (h : ComparableTLSHHash tau) :
    Except String Nat :=
  if h.detection_distance = 0 then Except.error "detection distance not set"
  else Except.ok h.detection_distance

/-- The comparator closure built by SimpleTLSHDetectorProvider::get_detector for
the modern (0x0003, per-entry-distance) database view: compute the diff of the
stored hash against the computed hash, then compare it to the stored entry
detection distance (which panics when the distance is 0).  `d` is the opaque
TLSH::diff function on inner hash values. -/
def distancedComparator {tau : Type} (d : tau → tau → Int)
    (hash stored : ComparableTLSHHash tau) : Except String Bool :=
  let diff := d stored.inner hash.inner
  match stored.detectionDistance with
  | Except.error e => Except.error e
  | Except.ok dist => Except.ok (decide (diff < (dist : Int)))

/-- The comparator closure built by SimpleTLSHDetectorProvider::get_detector for
the legacy (0x0002) database view: a fixed global threshold. -/
def legacyComparator {tau : Type} (d : tau → tau → Int) (threshold : Int)
    (hash stored : ComparableTLSHHash tau) : Except String Bool :=
  let diff := d stored.inner hash.inner
  Except.ok (decide (diff < threshold))

/-- Wrap an integer into the i32 range, as the Rust cast `as i32` does. -/
def wrap32 (x : Int) : Int :=
  (x + 2 ^ 31) % 2 ^ 32 - 2 ^ 31

/-- Threshold selection in SimpleTLSHDetectorProvider::get_detector for the
legacy view: the configured value (an i64, cast to i32) when present,
otherwise 40. -/
def legacyThresholdFromConfig (config : Option Int) : Int :=
  match config with
  | some t => wrap32 t
  | none => 40

/-- The loop body of CompareAgainstAllDetector::do_detect
(client-lib/src/api/hash.rs): iterate the stored hashes in order, count each
comparison, stop at the first comparator hit.  The comparator receives the
computed hash and the stored hash (as the closures built in
tlsh_detector.rs do) and may panic, which aborts the loop. -/
def compareLoop {H : Type} (compare_fn : H → H → Except String Bool) (hash : H) :
    List H → Nat → Except String (DetectionResult × Nat)
  | [], n => Except.ok (DetectionResult.NoMatch, n)
  | stored :: rest, n =>
    match compare_fn hash stored with
    | Except.error e => Except.error e
    | Except.ok true => Except.ok (DetectionResult.Match, n + 1)
    | Except.ok false => compareLoop compare_fn hash rest (n + 1)

/-- CompareAgainstAllDetector::do_detect: run the comparison loop over the
hash list returned by the database, starting the comparison counter at 0.
The result carries the number of comparisons performed. -/
def do_detect {H : Type} (compare_fn : H → H → Except String Bool)
    (hash : H) (hashes : List H) : Except String (DetectionResult × Nat) :=
  compareLoop compare_fn hash hashes 0

/-- Lookup in an association list, modelling HashMap::get. -/
def assocLookup {A : Type} [DecidableEq A] {B : Type} :
    List (A × B) → A → Option B
  | [], _ => none
  | (k, v) :: rest, key => if k = key then some v else assocLookup rest key

/-- One step of building the color map in DistancedTLSHDatabase::reload /
LegacyTLSHDatabase::reload: `self.hashes.entry(color).or_insert_with(default)`
followed by pushing the hash onto that color bucket. -/
def colorInsert {H : Type} :
    List (Nat × List H) → Nat → H → List (Nat × List H)
  | [], c, h => [(c, [h])]
  | (c', hs) :: rest, c, h =>
    if c' = c then (c', hs ++ [h]) :: rest
    else (c', hs) :: colorInsert rest c h

/-- The color map built by the reload methods from the database entries,
each entry being a (color, comparable hash) pair in database order. -/
def buildColorMap {H : Type} (entries : List (Nat × H)) : List (Nat × List H) :=
  entries.foldl (fun m e => colorInsert m e.1 e.2) []

/-- A modern (0x0003) database entry: opaque TLSH bytes (already parsed to the
inner hash value and its color) plus the per-entry distance. -/
structure DistancedDBEntry (tau : Type) where
  inner : tau
  color : Nat
  distance : Nat
deriving DecidableEq, Repr

/-- A legacy (0x0002) database entry: opaque TLSH bytes parsed to the inner
hash value and its color; no distance field. -/
structure LegacyDBEntry (tau : Type) where
  inner : tau
  color : Nat
deriving DecidableEq, Repr

/-- The hash store built by DistancedTLSHDatabase::reload: group the database
entries by color, keeping database order inside each bucket; the comparable
hashes carry the per-entry distance. -/
def DistancedTLSHDatabase.build {tau : Type} (entries : List (DistancedDBEntry tau)) :
    List (Nat × List (ComparableTLSHHash tau)) :=
  buildColorMap (entries.map fun e => (e.color, ⟨e.inner, e.distance⟩))

/-- The hash store built by LegacyTLSHDatabase::reload: as the modern build,
but every comparable hash gets detection_distance 0. -/
def LegacyTLSHDatabase.build {tau : Type} (entries : List (LegacyDBEntry tau)) :
    List (Nat × List (ComparableTLSHHash tau)) :=
  buildColorMap (entries.map fun e => (e.color, ⟨e.inner, 0⟩))

/-- get_hashes of both DistancedTLSHDatabase and LegacyTLSHDatabase:
`self.hashes[&0u8].as_slice()`.  Indexing a HashMap with a missing key
panics, modelled as an error. -/
def get_hashes {tau : Type} (hashes : List (Nat × List (ComparableTLSHHash tau))) :
    Except String (List (ComparableTLSHHash tau)) :=
  match assocLookup hashes 0 with
  | none => Except.error "no entry found for key"
  | some hs => Except.ok hs

/-- A full detection through CompareAgainstAllDetector::do_detect: fetch the
color-0 bucket via get_hashes (which may panic), then run the comparison
loop. -/
def detectWithStore {tau : Type} (compare_fn :
      ComparableTLSHHash tau → ComparableTLSHHash tau → Except String Bool)
    (hashes : List (Nat × List (ComparableTLSHHash tau)))
    (hash : ComparableTLSHHash tau) : Except String (DetectionResult × Nat) :=
  match get_hashes hashes with
  | Except.error e => Except.error e
  | Except.ok hs => do_detect compare_fn hash hs

/-! ## Hash computation from bytes and from a reader
    (AbstractHashBasedDetector, client-lib/src/api/hash.rs) -/

/-- READ_BUFFER_SIZE from client-lib/src/api/hash.rs. -/
def READ_BUFFER_SIZE : Nat := 1024

/-- A hash algorithm instance (HashAlg) as a shallow model: the algorithm state
is the sequence of bytes fed through update, and finalize plus get_hash is a
function from that sequence to an optional hash value (None when the hash
computation fails, for example on insufficient data). -/
structure HashAlgModel (H : Type) where
  hash_of : List Nat → Option H

/-- The byte sequence fed to the hash algorithm by check_reader.  The loop is
`while input.read(buffer) > 0 do update(buffer)`: each iteration copies the
next (up to 1024) input bytes over the front of the 1024-byte buffer and then
feeds the WHOLE buffer, stale tail included, to update.  `fuel` bounds the
iteration count; each iteration consumes at least one input byte, so
`input.length` fuel is exact. -/
def readerFeedsAux : Nat → List Nat → List Nat → List Nat
  | 0, _, _ => []
  | _ + 1, _, [] => []
  | fuel + 1, buffer, b :: rest =>
    let input := b :: rest
    let n := min READ_BUFFER_SIZE input.length
    let buffer' := input.take n ++ buffer.drop n
    buffer' ++ readerFeedsAux fuel buffer' (input.drop n)

/-- All bytes fed to the hash algorithm by check_reader on a reader that
yields `input`: the loop starts from a zero-initialised 1024-byte buffer. -/
def check_reader_fed (input : List Nat) : List Nat :=
  readerFeedsAux input.length (List.replicate READ_BUFFER_SIZE 0) input

/-- AbstractHashBasedDetector::check_bytes: hash exactly the input bytes,
fail with "Hash calculation failed" when get_hash yields nothing, otherwise
run the inner detection strategy on the hash. -/
def check_bytes {H : Type} (alg : HashAlgModel H)
    (detect : H → Except String (DetectionResult × Nat))
    (input_bytes : List Nat) : Except String DetectionResult :=
  match alg.hash_of input_bytes with
  | none => Except.error "Hash calculation failed"
  | some hash => (detect hash).map Prod.fst

/-- AbstractHashBasedDetector::check_reader: hash the bytes the read loop
feeds (whole buffers, see check_reader_fed), then proceed as check_bytes. -/
def check_reader {H : Type} (alg : HashAlgModel H)
    (detect : H → Except String (DetectionResult × Nat))
    (input : List Nat) : Except String DetectionResult :=
  match alg.hash_of (check_reader_fed input) with
  | none => Except.error "Hash calculation failed"
  | some hash => (detect hash).map Prod.fst

/-! ## The stat-fingerprint detection cache
    (simbiota/src/memory_detection_cache.rs) -/

/-- StatBasedCacheData: the six-field fingerprint extracted from fstat. -/
structure StatBasedCacheData where
  size : Int
  uid : Nat
  gid : Nat
  mtime : Int
  ctime : Int
  mode : Nat
deriving DecidableEq, Repr

/-- MemoryCacheEntry: stored fingerprint plus the stored verdict. -/
structure MemoryCacheEntry where
  data : StatBasedCacheData
  result : DetectionResult
deriving DecidableEq, Repr

/-- The cache map, path string to entry (HashMap as association list). -/
abbrev CacheMap := List (String × MemoryCacheEntry)

/-- StatBasedCacheData::from(fanotify_event_metadata): fstat the event fd and
extract the fingerprint.  The fstat outcome is the `st` argument (none when
fstat fails); on failure the code panics with "stat failed". -/
def statBasedCacheDataFrom (st : Option StatBasedCacheData) :
    Except String StatBasedCacheData :=
  match st with
  | none => Except.error "stat failed"
  | some s => Except.ok s

/-- Overwriting insert, modelling HashMap::insert. -/
def cacheInsert : CacheMap → String → MemoryCacheEntry → CacheMap
  | [], key, e => [(key, e)]
  | (k, v) :: rest, key, e =>
    if k = key then (key, e) :: rest
    else (k, v) :: cacheInsert rest key e

/-- MemoryDetectionCache::get_result_for: if no entry exists for the key,
return None without stat-ing; otherwise stat the event fd (panics on stat
failure) and return the stored result exactly when the current fingerprint
equals the stored one. -/
def get_result_for (cache : CacheMap) (key : String)
    (st : Option StatBasedCacheData) : Except String (Option DetectionResult) :=
  match assocLookup cache key with
  | none => Except.ok none
  | some entry =>
    match statBasedCacheDataFrom st with
    | Except.error e => Except.error e
    | Except.ok current =>
      Except.ok (if current = entry.data then some entry.result else none)

/-- MemoryDetectionCache::set_result_for: stat the event fd (panics on stat
failure) and insert the (current fingerprint, result) entry for the key,
overwriting any previous entry. -/
def set_result_for (cache : CacheMap) (key : String)
    (st : Option StatBasedCacheData) (result : DetectionResult) :
    Except String CacheMap :=
  match statBasedCacheDataFrom st with
  | Except.error e => Except.error e
  | Except.ok current => Except.ok (cacheInsert cache key ⟨current, result⟩)

/-! ## The decision worker callback
    (DetectionSystem::detector_callback, simbiota/src/detection_system.rs) -/

/-- Reinterpret an i32 value as a u32, as the Rust cast `as u32` does. -/
def u32_of_i32 (x : Int) : Nat := (x % 2 ^ 32).toNat

/-- What one invocation of detector_callback did: the verdict returned, the
cache state afterwards, whether check_reader was invoked, and whether
file_detected_action (quarantine and alert dispatch) was triggered. -/
structure CallbackOutcome where
  response : FanotifyEventResponse
  cache : CacheMap
  detector_invoked : Bool
  detection_action : Bool
deriving DecidableEq, Repr

/-- DetectionSystem::detector_callback for one event.  Inputs model the
environment of the call: `pid` is the event pid (i32), `daemon_pid` the
daemon pid (u32), `maybe_filename` the /proc/self/fd symlink resolution,
`st` the fstat outcome on the event fd, and `reader_result` the outcome of
Detector::check_reader on the event fd.  Panics (from the cache stat) abort
the worker and are modelled as errors. -/
def detector_callback (daemon_pid : Nat) (cache : CacheMap) (pid : Int)
    (maybe_filename : Option String) (st : Option StatBasedCacheData)
    (reader_result : Except String DetectionResult) :
    Except String CallbackOutcome :=
  if u32_of_i32 pid = daemon_pid then
    -- ignore accesses from myself
    Except.ok ⟨FanotifyEventResponse.Allow, cache, false, false⟩
  else
    let has_filename := maybe_filename.isSome
    let filename := maybe_filename.getD "<n/a>"
    -- check cache first (only when the filename resolved)
    match (if has_filename then get_result_for cache filename st
           else Except.ok none : Except String (Option DetectionResult)) with
    | Except.error e => Except.error e
    | Except.ok (some result) =>
      if result = DetectionResult.NoMatch then
        Except.ok ⟨FanotifyEventResponse.Allow, cache, false, false⟩
      else
        Except.ok ⟨FanotifyEventResponse.Deny, cache, false, true⟩
    | Except.ok none =>
      -- run the detector; an error is logged, skips caching and counts as NoMatch
      let no_cache := reader_result matches Except.error _
      let res := match reader_result with
        | Except.error _ => DetectionResult.NoMatch
        | Except.ok r => r
      match (if no_cache then Except.ok cache
             else set_result_for cache filename st res : Except String CacheMap) with
      | Except.error e => Except.error e
      | Except.ok cache' =>
        if res = DetectionResult.Match then
          Except.ok ⟨FanotifyEventResponse.Deny, cache', true, true⟩
        else
          Except.ok ⟨FanotifyEventResponse.Allow, cache', true, false⟩

/-! ## The fanotify event loop and responder
    (fanotify-monitor/src/low_level/low_level_linux.rs,
     fanotify-monitor/src/low_level/mod.rs) -/

/-- FAN_OPEN_PERM from libc (linux fanotify.h). -/
def FAN_OPEN_PERM : Nat := 0x10000

/-- FAN_ACCESS_PERM from libc (linux fanotify.h). -/
def FAN_ACCESS_PERM : Nat := 0x20000

/-- FAN_OPEN_EXEC_PERM from fanotify-monitor/src/low_level/mod.rs. -/
def FAN_OPEN_EXEC_PERM : Nat := 0x40000

/-- FANOTIFY_PERM_EVENTS from fanotify-monitor/src/low_level/mod.rs. -/
def FANOTIFY_PERM_EVENTS : Nat := FAN_OPEN_EXEC_PERM ||| FAN_ACCESS_PERM ||| FAN_OPEN_PERM

/-- FAN_ALLOW from libc. -/
def FAN_ALLOW : Nat := 0x01

/-- FAN_DENY from libc. -/
def FAN_DENY : Nat := 0x02

/-- FanotifyEventResponse::as_libc. -/
def FanotifyEventResponse.as_libc : FanotifyEventResponse → Nat
  | FanotifyEventResponse.Allow => FAN_ALLOW
  | FanotifyEventResponse.Deny => FAN_DENY

/-- The fields of libc fanotify_event_metadata that the daemon reads:
mask (u64), fd (i32), pid (i32). -/
structure fanotify_event_metadata where
  mask : Nat
  fd : Int
  pid : Int
deriving DecidableEq, Repr

/-- libc fanotify_response: the fd of the event and the verdict code. -/
structure fanotify_response where
  fd : Int
  response : Nat
deriving DecidableEq, Repr

/-- The messages monitor_listen sends to the MonitorResponder thread. -/
inductive MonitorEvent where
  | PermEvent (meta : fanotify_event_metadata)
  | NormalEvent (meta : fanotify_event_metadata)
deriving DecidableEq, Repr

/-- The per-event body of the monitor_listen loop: a permission-bearing event
from the daemon pid itself gets an Allow response written immediately (the
self-pid fast path); any other permission-bearing event is sent to the
responder as PermEvent; a non-permission event is sent as NormalEvent.
Returns the fanotify_response records written directly and the messages
sent. -/
def monitor_listen_handle_event (mypid : Int) (e : fanotify_event_metadata) :
    List fanotify_response × List MonitorEvent :=
  if e.mask &&& FANOTIFY_PERM_EVENTS > 0 then
    if e.pid = mypid then
      ([⟨e.fd, FanotifyEventResponse.Allow.as_libc⟩], [])
    else
      ([], [MonitorEvent.PermEvent e])
  else
    ([], [MonitorEvent.NormalEvent e])

/-- One iteration of MonitorResponder::start for a received message.  For a
PermEvent the response callback runs first and the fanotify_response with the
event fd is written only after it returns; a callback that panics (modelled
as `none`) unwinds the responder thread before any write.  Returns the
records written and whether the thread panicked. -/
def MonitorResponder.handle
    (response_callback : fanotify_event_metadata → Option FanotifyEventResponse)
    (ev : MonitorEvent) : List fanotify_response × Bool :=
  match ev with
  | MonitorEvent.PermEvent meta =>
    match response_callback meta with
    | none => ([], true)
    | some result => ([⟨meta.fd, result.as_libc⟩], false)
  | MonitorEvent.NormalEvent _ => ([], false)

/-- All fanotify_response records written for one event accepted by the event
loop, combining the fast-path writes of monitor_listen with the responder
writes for the messages it sent, plus whether the decision path panicked. -/
def event_response_writes (mypid : Int)
    (response_callback : fanotify_event_metadata → Option FanotifyEventResponse)
    (e : fanotify_event_metadata) : List fanotify_response × Bool :=
  let step := monitor_listen_handle_event mypid e
  let handled := step.2.map (MonitorResponder.handle response_callback)
  (step.1 ++ (handled.map Prod.fst).flatten, handled.any Prod.snd)

/-! ## The quarantine store (simbiota/src/quarantine.rs)

The filesystem outside the quarantine directory is an association list from
absolute paths to files; a file carries its content bytes and the stat fields
the store records (uid, gid, full st_mode).  The quarantine directory is the
list of its payload/sidecar pairs in directory order: add_file always writes
the payload and its sidecar together, and the sidecar JSON round-trip
(serialize then deserialize) is assumed exact, so a stored entry is the pair
of the payload file and its parsed QuarantineEntryInfo. -/

/-- QuarantineEntryInfo from simbiota/src/quarantine.rs. -/
structure QuarantineEntryInfo where
  original_path : String
  uid : Nat
  gid : Nat
  mode : Nat
deriving DecidableEq, Repr

/-- A file: content plus the inode attributes the quarantine store touches.
rename preserves all of them; chmod changes only the permission bits. -/
structure FSFile where
  content : List Nat
  uid : Nat
  gid : Nat
  mode : Nat
deriving DecidableEq, Repr

/-- The filesystem outside the quarantine directory. -/
abbrev FileSystem := List (String × FSFile)

/-- A payload stored in the quarantine directory together with its parsed
sidecar. -/
structure StoredQuarantineEntry where
  id : String
  info : QuarantineEntryInfo
  payload : FSFile
deriving DecidableEq, Repr

/-- chmod: replace the low 12 permission bits of an st_mode, keeping the
file-type bits (chmod(2) cannot change the file type). -/
def chmodMode (old m : Nat) : Nat := old / 4096 * 4096 + m % 4096

/-- Overwriting insert into the filesystem map (rename target). -/
def fsInsert : FileSystem → String → FSFile → FileSystem
  | [], p, f => [(p, f)]
  | (q, g) :: rest, p, f =>
    if q = p then (p, f) :: rest else (q, g) :: fsInsert rest p f

/-- Remove a path from the filesystem map (rename source). -/
def fsRemove : FileSystem → String → FileSystem
  | [], _ => []
  | (q, g) :: rest, p =>
    if q = p then rest else (q, g) :: fsRemove rest p

/-- Quarantine::add_file: if the path does not exist, warn and return; else
record (original path, st_mode, uid, gid) in the entry info, rename the file
into the quarantine directory under the fresh id, chmod the payload to 0000,
and write the sidecar (chmod 0600 touches only the sidecar file, which the
model keeps as the parsed info). -/
def add_file (fs : FileSystem) (q : List StoredQuarantineEntry)
    (filename : String) (fresh_id : String) :
    FileSystem × List StoredQuarantineEntry :=
  match assocLookup fs filename with
  | none => (fs, q)
  | some f =>
    let info : QuarantineEntryInfo := ⟨filename, f.uid, f.gid, f.mode⟩
    let payload : FSFile := { f with mode := chmodMode f.mode 0 }
    (fsRemove fs filename, q ++ [⟨fresh_id, info, payload⟩])

/-- Quarantine::get_stored_entries on the modelled directory state: every
payload has its sidecar (they are written together), so no orphan is dropped
and the entries come back in directory order. -/
def get_stored_entries (q : List StoredQuarantineEntry) :
    List StoredQuarantineEntry := q

/-- Quarantine::get_entry_by_id: index into the listed entries. -/
def get_entry_by_id (q : List StoredQuarantineEntry) (id : Nat) :
    Option QuarantineEntryInfo :=
  ((get_stored_entries q).get? id).map (fun e => e.info)

/-- Quarantine::get_entry_by_name: first entry whose recorded original path
equals the name. -/
def get_entry_by_name (q : List StoredQuarantineEntry) (name : String) :
    Option QuarantineEntryInfo :=
  ((get_stored_entries q).find? (fun e => e.info.original_path = name)).map
    (fun e => e.info)

/-- Remove the first stored entry whose info equals the given one (the entry
restore_entry renames away and whose sidecar it deletes). -/
def removeFirstByInfo : List StoredQuarantineEntry → QuarantineEntryInfo →
    List StoredQuarantineEntry
  | [], _ => []
  | e :: rest, info =>
    if e.info = info then rest else e :: removeFirstByInfo rest info

/-- Quarantine::restore_entry: find the first stored entry whose info equals
the requested one; rename its payload back to the original path (rename
preserves content, uid and gid), chmod it to the saved mode, and delete the
sidecar.  When no entry matches, nothing happens. -/
def restore_entry (fs : FileSystem) (q : List StoredQuarantineEntry)
    (entry : QuarantineEntryInfo) : FileSystem × List StoredQuarantineEntry :=
  match (get_stored_entries q).find? (fun e => e.info = entry) with
  | none => (fs, q)
  | some e =>
    let restored : FSFile := { e.payload with mode := chmodMode e.payload.mode entry.mode }
    (fsInsert fs entry.original_path restored, removeFirstByInfo q entry)

/-! ## Helper lemmas -/

theorem compareLoop_all_false {H : Type} (c : H → H → Except String Bool) (hash : H)
    (l : List H) : ∀ (n : Nat), (∀ s ∈ l, c hash s = Except.ok false) →
      compareLoop c hash l n = Except.ok (DetectionResult.NoMatch, n + l.length) := by
  induction l with
  | nil => intro n _; simp [compareLoop]
  | cons a t ih =>
    intro n h
    have ha : c hash a = Except.ok false := h a (List.mem_cons_self a t)
    have ih' := ih (n + 1) (fun s hs => h s (List.mem_cons_of_mem a hs))
    have harith : n + (t.length + 1) = n + 1 + t.length := by omega
    simp only [compareLoop, ha, List.length_cons, harith]
    exact ih'

theorem compareLoop_first_hit {H : Type} (c : H → H → Except String Bool) (hash : H)
    (before : List H) (e : H) (after : List H) :
    ∀ (n : Nat), (∀ s ∈ before, c hash s = Except.ok false) → c hash e = Except.ok true →
      compareLoop c hash (before ++ e :: after) n =
        Except.ok (DetectionResult.Match, n + before.length + 1) := by
  induction before with
  | nil => intro n _ he; simp [compareLoop, he]
  | cons a t ih =>
    intro n h he
    have ha : c hash a = Except.ok false := h a (List.mem_cons_self a t)
    have ih' := ih (n + 1) (fun s hs => h s (List.mem_cons_of_mem a hs)) he
    have harith : n + (t.length + 1) + 1 = n + 1 + t.length + 1 := by omega
    simp only [List.cons_append, compareLoop, ha, List.length_cons, harith]
    exact ih'

theorem compareLoop_first_error {H : Type} (c : H → H → Except String Bool) (hash : H)
    (before : List H) (e : H) (after : List H) (msg : String) :
    ∀ (n : Nat), (∀ s ∈ before, c hash s = Except.ok false) → c hash e = Except.error msg →
      compareLoop c hash (before ++ e :: after) n = Except.error msg := by
  induction before with
  | nil => intro n _ he; simp [compareLoop, he]
  | cons a t ih =>
    intro n h he
    have ha : c hash a = Except.ok false := h a (List.mem_cons_self a t)
    have ih' := ih (n + 1) (fun s hs => h s (List.mem_cons_of_mem a hs)) he
    simp only [List.cons_append, compareLoop, ha]
    exact ih'

theorem assocLookup_colorInsert_ne {H : Type} (m : List (Nat × List H)) (c : Nat)
    (h : H) (k : Nat) (hck : c ≠ k) :
    assocLookup (colorInsert m c h) k = assocLookup m k := by
  induction m with
  | nil => simp only [colorInsert, assocLookup, if_neg hck]
  | cons p rest ih =>
    obtain ⟨c', hs⟩ := p
    by_cases hcc : c' = c
    · have h1 : ¬ c' = k := fun hh => hck (hcc.symm.trans hh)
      simp only [colorInsert, if_pos hcc, assocLookup, if_neg h1]
    · by_cases hkk : c' = k
      · have h2 : ¬ k = c := fun hh => hcc (hkk.trans hh)
        simp [colorInsert, assocLookup, hcc, hkk, h2]
      · simp [colorInsert, assocLookup, hcc, hkk, ih]

theorem assocLookup_buildColorMap_zero_of_colors_ne {H : Type} (pairs : List (Nat × H)) :
    ∀ (m : List (Nat × List H)), (∀ p ∈ pairs, p.1 ≠ 0) →
      assocLookup (pairs.foldl (fun m e => colorInsert m e.1 e.2) m) 0 = assocLookup m 0 := by
  induction pairs with
  | nil => intro m _; rfl
  | cons p rest ih =>
    intro m h
    have hp : p.1 ≠ 0 := h p (List.mem_cons_self p rest)
    have ih' := ih (colorInsert m p.1 p.2) (fun q hq => h q (List.mem_cons_of_mem p hq))
    simp only [List.foldl_cons]
    rw [ih']
    exact assocLookup_colorInsert_ne m p.1 p.2 0 hp

theorem assocLookup_cacheInsert_self (cache : CacheMap) (key : String)
    (e : MemoryCacheEntry) :
    assocLookup (cacheInsert cache key e) key = some e := by
  induction cache with
  | nil => simp [cacheInsert, assocLookup]
  | cons p rest ih =>
    obtain ⟨k, v⟩ := p
    by_cases hk : k = key
    · simp [cacheInsert, assocLookup, hk]
    · simp [cacheInsert, assocLookup, hk, ih]

theorem assocLookup_cacheInsert_other (cache : CacheMap) (key : String)
    (e : MemoryCacheEntry) (k : String) (hk : k ≠ key) :
    assocLookup (cacheInsert cache key e) k = assocLookup cache k := by
  have hkey : ¬ key = k := fun hh => hk hh.symm
  induction cache with
  | nil => simp only [cacheInsert, assocLookup, if_neg hkey]
  | cons p rest ih =>
    obtain ⟨k', v⟩ := p
    by_cases hk' : k' = key
    · simp [cacheInsert, assocLookup, hk', hkey]
    · by_cases hkk : k' = k
      · simp [cacheInsert, assocLookup, hk', hkk, hk]
      · simp [cacheInsert, assocLookup, hk', hkk, ih]

theorem assocLookup_fsInsert_self (fs : FileSystem) (p : String) (f : FSFile) :
    assocLookup (fsInsert fs p f) p = some f := by
  induction fs with
  | nil => simp [fsInsert, assocLookup]
  | cons e rest ih =>
    obtain ⟨q, g⟩ := e
    by_cases hq : q = p
    · simp [fsInsert, assocLookup, hq]
    · simp [fsInsert, assocLookup, hq, ih]

theorem find?_append_of_left_false {α : Type} (p : α → Bool) (l1 l2 : List α)
    (h : ∀ x ∈ l1, p x = false) : (l1 ++ l2).find? p = l2.find? p := by
  induction l1 with
  | nil => rfl
  | cons a t ih =>
    have ha : p a = false := h a (List.mem_cons_self a t)
    simp only [List.cons_append, List.find?, ha]
    exact ih (fun x hx => h x (List.mem_cons_of_mem a hx))

theorem removeFirstByInfo_append_of_none (q0 : List StoredQuarantineEntry)
    (E : StoredQuarantineEntry) (info : QuarantineEntryInfo)
    (h : ∀ e ∈ q0, e.info ≠ info) (hE : E.info = info) :
    removeFirstByInfo (q0 ++ [E]) info = q0 := by
  induction q0 with
  | nil => simp [removeFirstByInfo, hE]
  | cons e t ih =>
    have he : e.info ≠ info := h e (List.mem_cons_self e t)
    have ih' := ih (fun x hx => h x (List.mem_cons_of_mem e hx))
    simp only [List.cons_append, removeFirstByInfo, if_neg he]
    rw [show (t.append [E] : List StoredQuarantineEntry) = t ++ [E] from rfl, ih']

theorem chmodMode_roundtrip (m : Nat) : chmodMode (chmodMode m 0) m = m := by
  unfold chmodMode
  have h1 : (m / 4096 * 4096 + 0 % 4096) / 4096 = m / 4096 := by
    simp [Nat.mul_div_cancel]
  rw [h1]
  omega

theorem legacyComparator_eval {tau : Type} (d : tau → tau → Int) (t : Int)
    (hash s : ComparableTLSHHash tau) :
    legacyComparator d t hash s = Except.ok (decide (d s.inner hash.inner < t)) := rfl

theorem distancedComparator_eval_of_ne {tau : Type} (d : tau → tau → Int)
    (hash s : ComparableTLSHHash tau) (hs : s.detection_distance ≠ 0) :
    distancedComparator d hash s =
      Except.ok (decide (d s.inner hash.inner < (s.detection_distance : Int))) := by
  simp [distancedComparator, ComparableTLSHHash.detectionDistance, hs]

theorem distancedComparator_eval_of_zero {tau : Type} (d : tau → tau → Int)
    (hash s : ComparableTLSHHash tau) (hs : s.detection_distance = 0) :
    distancedComparator d hash s = Except.error "detection distance not set" := by
  simp [distancedComparator, ComparableTLSHHash.detectionDistance, hs]

/-! ## Claim theorems -/

/-- C3: CompareAgainstAllDetector::do_detect iterates the stored entries in
snapshot order, compares the diff of the computed hash and each entry to the
applicable threshold (the entry detection_distance in the modern format, the
configurable global constant defaulting to 40 in the legacy format), returns
Match at the first entry whose diff is strictly below its threshold having
compared exactly the entries up to and including it (short-circuiting the
rest), and returns NoMatch after comparing every entry otherwise. -/
theorem C3_compare_against_all_order {tau : Type} (d : tau → tau → Int)
    (hd : ∀ a b, d a b = d b a) (hash : ComparableTLSHHash tau) (t : Int) :
    legacyThresholdFromConfig none = 40
    ∧ (∀ (before : List (ComparableTLSHHash tau)) (e : ComparableTLSHHash tau)
        (after : List (ComparableTLSHHash tau)),
        (∀ s ∈ before, ¬ d hash.inner s.inner < t) →
        d hash.inner e.inner < t →
        do_detect (legacyComparator d t) hash (before ++ e :: after) =
          Except.ok (DetectionResult.Match, before.length + 1))
    ∧ (∀ entries : List (ComparableTLSHHash tau),
        (∀ s ∈ entries, ¬ d hash.inner s.inner < t) →
        do_detect (legacyComparator d t) hash entries =
          Except.ok (DetectionResult.NoMatch, entries.length))
    ∧ (∀ (before : List (ComparableTLSHHash tau)) (e : ComparableTLSHHash tau)
        (after : List (ComparableTLSHHash tau)),
        (∀ s ∈ before, s.detection_distance ≠ 0 ∧
          ¬ d hash.inner s.inner < (s.detection_distance : Int)) →
        e.detection_distance ≠ 0 →
        d hash.inner e.inner < (e.detection_distance : Int) →
        do_detect (distancedComparator d) hash (before ++ e :: after) =
          Except.ok (DetectionResult.Match, before.length + 1))
    ∧ (∀ entries : List (ComparableTLSHHash tau),
        (∀ s ∈ entries, s.detection_distance ≠ 0 ∧
          ¬ d hash.inner s.inner < (s.detection_distance : Int)) →
        do_detect (distancedComparator d) hash entries =
          Except.ok (DetectionResult.NoMatch, entries.length)) := by
  refine ⟨rfl, ?_, ?_, ?_, ?_⟩
  · intro before e after hb he
    have hb' : ∀ s ∈ before, legacyComparator d t hash s = Except.ok false := by
      intro s hs
      rw [legacyComparator_eval, hd s.inner hash.inner]
      simp [hb s hs]
    have he' : legacyComparator d t hash e = Except.ok true := by
      rw [legacyComparator_eval, hd e.inner hash.inner]
      simp [he]
    have := compareLoop_first_hit (legacyComparator d t) hash before e after 0 hb' he'
    simpa [do_detect] using this
  · intro entries h
    have h' : ∀ s ∈ entries, legacyComparator d t hash s = Except.ok false := by
      intro s hs
      rw [legacyComparator_eval, hd s.inner hash.inner]
      simp [h s hs]
    have := compareLoop_all_false (legacyComparator d t) hash entries 0 h'
    simpa [do_detect] using this
  · intro before e after hb hne he
    have hb' : ∀ s ∈ before, distancedComparator d hash s = Except.ok false := by
      intro s hs
      rw [distancedComparator_eval_of_ne d hash s (hb s hs).1, hd s.inner hash.inner]
      simp [(hb s hs).2]
    have he' : distancedComparator d hash e = Except.ok true := by
      rw [distancedComparator_eval_of_ne d hash e hne, hd e.inner hash.inner]
      simp [he]
    have := compareLoop_first_hit (distancedComparator d) hash before e after 0 hb' he'
    simpa [do_detect] using this
  · intro entries h
    have h' : ∀ s ∈ entries, distancedComparator d hash s = Except.ok false := by
      intro s hs
      rw [distancedComparator_eval_of_ne d hash s (h s hs).1, hd s.inner hash.inner]
      simp [(h s hs).2]
    have := compareLoop_all_false (distancedComparator d) hash entries 0 h'
    simpa [do_detect] using this

/-- C3 witness: a concrete diff function, a concrete hash, a legacy run that
matches at the second of three entries after one failed comparison, and a
modern run that compares both entries and reports NoMatch. -/
theorem C3_compare_against_all_order_witness :
    do_detect (legacyComparator (fun a b : Nat => ((a : Int) - b) ^ 2) 40)
        (⟨0, 0⟩ : ComparableTLSHHash Nat) ([⟨100, 0⟩] ++ ⟨3, 0⟩ :: [⟨1, 0⟩]) =
      Except.ok (DetectionResult.Match, 2)
    ∧ do_detect (distancedComparator (fun a b : Nat => ((a : Int) - b) ^ 2))
        (⟨0, 0⟩ : ComparableTLSHHash Nat) [⟨100, 50⟩, ⟨7, 1⟩] =
      Except.ok (DetectionResult.NoMatch, 2) := by
  have hsym : ∀ a b : Nat, ((a : Int) - b) ^ 2 = ((b : Int) - a) ^ 2 := by
    intro a b; ring
  have H := C3_compare_against_all_order (fun a b : Nat => ((a : Int) - b) ^ 2) hsym
    ⟨0, 0⟩ 40
  refine ⟨H.2.1 [⟨100, 0⟩] ⟨3, 0⟩ [⟨1, 0⟩] ?_ ?_,
    H.2.2.2.2 [⟨100, 50⟩, ⟨7, 1⟩] ?_⟩ <;> decide

/-- C10: in the modern per-entry-distance format, a comparison only returns a
verdict when the stored entry has a nonzero detection_distance; comparing
against a zero-distance entry panics with "detection distance not set", so a
database holding a zero-distance entry before any matching entry makes the
detection abort instead of yielding Match or NoMatch. -/
theorem C10_zero_distance_panics {tau : Type} (d : tau → tau → Int)
    (hash : ComparableTLSHHash tau) :
    (∀ (stored : ComparableTLSHHash tau) (b : Bool),
        distancedComparator d hash stored = Except.ok b →
        stored.detection_distance ≠ 0)
    ∧ (∀ (before : List (ComparableTLSHHash tau)) (z : ComparableTLSHHash tau)
        (after : List (ComparableTLSHHash tau)),
        (∀ s ∈ before, s.detection_distance ≠ 0 ∧
          ¬ d s.inner hash.inner < (s.detection_distance : Int)) →
        z.detection_distance = 0 →
        do_detect (distancedComparator d) hash (before ++ z :: after) =
          Except.error "detection distance not set") := by
  constructor
  · intro stored b hok h0
    rw [distancedComparator_eval_of_zero d hash stored h0] at hok
    exact Except.noConfusion hok
  · intro before z after hb hz
    have hb' : ∀ s ∈ before, distancedComparator d hash s = Except.ok false := by
      intro s hs
      rw [distancedComparator_eval_of_ne d hash s (hb s hs).1]
      simp [(hb s hs).2]
    have hz' : distancedComparator d hash z = Except.error "detection distance not set" :=
      distancedComparator_eval_of_zero d hash z hz
    exact compareLoop_first_error (distancedComparator d) hash before z after
      "detection distance not set" 0 hb' hz'

/-- C10 witness: a zero-distance entry sits between a non-matching entry and
an entry that would match; the detection aborts with the panic message. -/
theorem C10_zero_distance_panics_witness :
    do_detect (distancedComparator (fun a b : Nat => ((a : Int) - b) ^ 2))
        (⟨0, 0⟩ : ComparableTLSHHash Nat) ([⟨100, 50⟩] ++ ⟨7, 0⟩ :: [⟨0, 200⟩]) =
      Except.error "detection distance not set" := by
  exact (C10_zero_distance_panics (fun a b : Nat => ((a : Int) - b) ^ 2) ⟨0, 0⟩).2
    [⟨100, 50⟩] ⟨7, 0⟩ [⟨0, 200⟩] (by decide) rfl

/-- C7 counterexample: with an empty signature set (so no color-0 entries)
the detector does not return NoMatch: get_hashes indexes the missing color-0
bucket of the HashMap, which panics, so detection aborts with an error. -/
theorem C7_empty_snapshot_counterexample :
    detectWithStore (legacyComparator (fun a b : Nat => ((a : Int) - b) ^ 2) 40)
        (LegacyTLSHDatabase.build []) ⟨0, 0⟩ = Except.error "no entry found for key"
    ∧ Except.error "no entry found for key" ≠
        (Except.ok (DetectionResult.NoMatch, 0) : Except String (DetectionResult × Nat)) :=
  ⟨rfl, fun h => Except.noConfusion h⟩

/-- C7 (amended): when the signature snapshot contains no entries of color 0
(in particular an empty signature set), get_hashes panics indexing the
missing color-0 bucket and detection aborts instead of returning a verdict;
when a color-0 bucket exists and no stored entry in it compares below its
threshold, the detector returns NoMatch after comparing every entry of the
bucket. -/
theorem C7_empty_snapshot_amended {tau : Type}
    (compare_fn : ComparableTLSHHash tau → ComparableTLSHHash tau → Except String Bool)
    (pairs : List (Nat × ComparableTLSHHash tau)) (hash : ComparableTLSHHash tau) :
    ((∀ p ∈ pairs, p.1 ≠ 0) →
      detectWithStore compare_fn (buildColorMap pairs) hash =
        Except.error "no entry found for key")
    ∧ (∀ hs : List (ComparableTLSHHash tau),
        assocLookup (buildColorMap pairs) 0 = some hs →
        (∀ s ∈ hs, compare_fn hash s = Except.ok false) →
        detectWithStore compare_fn (buildColorMap pairs) hash =
          Except.ok (DetectionResult.NoMatch, hs.length)) := by
  constructor
  · intro h
    have hz : assocLookup (buildColorMap pairs) 0 = none := by
      rw [buildColorMap, assocLookup_buildColorMap_zero_of_colors_ne pairs [] h]
      rfl
    simp [detectWithStore, get_hashes, hz]
  · intro hs hz hfalse
    have := compareLoop_all_false compare_fn hash hs 0 hfalse
    simp [detectWithStore, get_hashes, hz, do_detect, this]

/-- C7 amended witness: a snapshot whose only entry has color 1 panics on
lookup; a snapshot with one non-matching color-0 entry yields NoMatch. -/
theorem C7_empty_snapshot_amended_witness :
    detectWithStore (legacyComparator (fun a b : Nat => ((a : Int) - b) ^ 2) 40)
        (buildColorMap [(1, ⟨5, 0⟩)]) (⟨0, 0⟩ : ComparableTLSHHash Nat) =
      Except.error "no entry found for key"
    ∧ detectWithStore (legacyComparator (fun a b : Nat => ((a : Int) - b) ^ 2) 40)
        (buildColorMap [(0, ⟨100, 0⟩)]) (⟨0, 0⟩ : ComparableTLSHHash Nat) =
      Except.ok (DetectionResult.NoMatch, 1) := by
  constructor
  · exact (C7_empty_snapshot_amended _ _ _).1 (by decide)
  · refine (C7_empty_snapshot_amended _ _ _).2 [⟨100, 0⟩] rfl ?_
    intro s hs
    have hs' : s = (⟨100, 0⟩ : ComparableTLSHHash Nat) := by simpa using hs
    subst hs'
    rfl

/-- C5: MemoryDetectionCache::get_result_for stats the event fd for the
current six-field fingerprint and returns the stored verdict exactly when an
entry exists for the path and the stored fingerprint is value-equal to the
current one over all six fields, returning absent otherwise; set_result_for
unconditionally overwrites any prior entry for the path with the current
fingerprint and the given verdict (and leaves other paths untouched). -/
theorem C5_cache_fingerprint_semantics (cache : CacheMap) (key : String)
    (s : StatBasedCacheData) (v : DetectionResult) :
    (get_result_for cache key (some s) = Except.ok (some v) ↔
      ∃ e, assocLookup cache key = some e ∧ e.data = s ∧ e.result = v)
    ∧ (get_result_for cache key (some s) = Except.ok none ↔
      ¬ ∃ e, assocLookup cache key = some e ∧ e.data = s)
    ∧ set_result_for cache key (some s) v = Except.ok (cacheInsert cache key ⟨s, v⟩)
    ∧ assocLookup (cacheInsert cache key ⟨s, v⟩) key = some ⟨s, v⟩
    ∧ (∀ k, k ≠ key →
        assocLookup (cacheInsert cache key ⟨s, v⟩) k = assocLookup cache k) := by
  refine ⟨?_, ?_, rfl, assocLookup_cacheInsert_self cache key ⟨s, v⟩,
    fun k hk => assocLookup_cacheInsert_other cache key ⟨s, v⟩ k hk⟩
  · cases h : assocLookup cache key with
    | none => simp [get_result_for, statBasedCacheDataFrom, h]
    | some e =>
      by_cases hd : s = e.data
      · simp [get_result_for, statBasedCacheDataFrom, h, hd]
      · have hd' : ¬ e.data = s := fun hh => hd hh.symm
        simp [get_result_for, statBasedCacheDataFrom, h, hd, hd']
  · cases h : assocLookup cache key with
    | none => simp [get_result_for, statBasedCacheDataFrom, h]
    | some e =>
      by_cases hd : s = e.data
      · simp [get_result_for, statBasedCacheDataFrom, h, hd]
      · have hd' : ¬ e.data = s := fun hh => hd hh.symm
        simp [get_result_for, statBasedCacheDataFrom, h, hd, hd']

/-- C5 witness: a concrete hit with an equal fingerprint, and a set that
leaves an unrelated key unchanged. -/
theorem C5_cache_fingerprint_semantics_witness :
    get_result_for [("/bin/x", ⟨⟨10, 0, 0, 1, 2, 33188⟩, DetectionResult.Match⟩)]
        "/bin/x" (some ⟨10, 0, 0, 1, 2, 33188⟩) = Except.ok (some DetectionResult.Match)
    ∧ assocLookup (cacheInsert [] "/bin/x"
        (⟨⟨10, 0, 0, 1, 2, 33188⟩, DetectionResult.Match⟩ : MemoryCacheEntry)) "/bin/y"
      = assocLookup ([] : CacheMap) "/bin/y" := by
  constructor
  · exact (C5_cache_fingerprint_semantics
      [("/bin/x", ⟨⟨10, 0, 0, 1, 2, 33188⟩, DetectionResult.Match⟩)] "/bin/x"
      ⟨10, 0, 0, 1, 2, 33188⟩ DetectionResult.Match).1.mpr ⟨_, rfl, rfl, rfl⟩
  · exact (C5_cache_fingerprint_semantics [] "/bin/x" ⟨10, 0, 0, 1, 2, 33188⟩
      DetectionResult.Match).2.2.2.2 "/bin/y" (by decide)

/-- C6 counterexample: when fstat on the event fd fails and an entry exists
for the path, get_result_for does not return absent: StatBasedCacheData::from
panics with "stat failed", so the lookup aborts the daemon instead of
falling through to detection. -/
theorem C6_stat_failure_counterexample :
    get_result_for [("/bin/x", ⟨⟨0, 0, 0, 0, 0, 0⟩, DetectionResult.NoMatch⟩)]
        "/bin/x" none = Except.error "stat failed"
    ∧ Except.error "stat failed" ≠
        (Except.ok none : Except String (Option DetectionResult)) :=
  ⟨rfl, fun h => Except.noConfusion h⟩

/-- C6 (amended): a stat failure on the event fd is not treated as a cache
miss: get_result_for panics with "stat failed" whenever an entry exists for
the path (a path with no entry returns absent only because the map is
checked before the stat), and set_result_for always panics on stat
failure. -/
theorem C6_stat_failure_amended (cache : CacheMap) (key : String) :
    (∀ e, assocLookup cache key = some e →
      get_result_for cache key none = Except.error "stat failed")
    ∧ (assocLookup cache key = none →
      get_result_for cache key none = Except.ok none)
    ∧ (∀ v, set_result_for cache key none v = Except.error "stat failed") := by
  refine ⟨?_, ?_, fun v => rfl⟩
  · intro e he
    simp [get_result_for, statBasedCacheDataFrom, he]
  · intro he
    simp [get_result_for, he]

/-- C6 amended witness: a populated path panics on stat failure, a missing
path returns absent. -/
theorem C6_stat_failure_amended_witness :
    get_result_for [("/bin/x", ⟨⟨0, 0, 0, 0, 0, 0⟩, DetectionResult.NoMatch⟩)]
        "/bin/x" none = Except.error "stat failed"
    ∧ get_result_for [("/bin/x", ⟨⟨0, 0, 0, 0, 0, 0⟩, DetectionResult.NoMatch⟩)]
        "/bin/y" none = Except.ok none := by
  constructor
  · exact (C6_stat_failure_amended
      [("/bin/x", ⟨⟨0, 0, 0, 0, 0, 0⟩, DetectionResult.NoMatch⟩)] "/bin/x").1
      ⟨⟨0, 0, 0, 0, 0, 0⟩, DetectionResult.NoMatch⟩ rfl
  · exact (C6_stat_failure_amended
      [("/bin/x", ⟨⟨0, 0, 0, 0, 0, 0⟩, DetectionResult.NoMatch⟩)] "/bin/y").2.1 (by decide)

/-- C4: when Detector::check_reader returns an error for the event file, the
decision worker logs, returns Allow (never Deny), and inserts nothing into
the detection cache: the cache after the call equals the cache before, and
no quarantine action fires. -/
theorem C4_detector_error_allows_uncached (daemon_pid : Nat) (cache : CacheMap)
    (pid : Int) (maybe_filename : Option String) (st : Option StatBasedCacheData)
    (msg : String) (hpid : u32_of_i32 pid ≠ daemon_pid)
    (hmiss : maybe_filename.isSome = true →
      get_result_for cache (maybe_filename.getD "<n/a>") st = Except.ok none) :
    detector_callback daemon_pid cache pid maybe_filename st (Except.error msg) =
      Except.ok ⟨FanotifyEventResponse.Allow, cache, true, false⟩ := by
  cases maybe_filename with
  | none => simp [detector_callback, hpid]
  | some fn =>
    have h := hmiss rfl
    simp only [Option.getD_some] at h
    simp [detector_callback, hpid, h]

/-- C4 witness: a concrete cache-missing event whose detector errors out. -/
theorem C4_detector_error_allows_uncached_witness :
    detector_callback 1 [] 5 (some "/bin/x") (some ⟨1, 2, 3, 4, 5, 6⟩)
        (Except.error "Hash calculation failed") =
      Except.ok ⟨FanotifyEventResponse.Allow, [], true, false⟩ :=
  C4_detector_error_allows_uncached 1 [] 5 (some "/bin/x") (some ⟨1, 2, 3, 4, 5, 6⟩)
    "Hash calculation failed" (by decide) (fun _ => rfl)

/-- C2: a permission-bearing event whose pid equals the daemon pid is
answered by the event loop itself with a single Allow write and is never
sent to the decision worker; and the decision worker first step returns
Allow, with the detector never invoked, whenever the event pid equals the
daemon pid. -/
theorem C2_self_pid_bypass (mypid : Int) (e : fanotify_event_metadata)
    (hperm : e.mask &&& FANOTIFY_PERM_EVENTS > 0) (hpid : e.pid = mypid)
    (daemon_pid : Nat) (cache : CacheMap) (pid : Int) (maybe_filename : Option String)
    (st : Option StatBasedCacheData) (reader_result : Except String DetectionResult)
    (hpid2 : u32_of_i32 pid = daemon_pid) :
    monitor_listen_handle_event mypid e =
        ([⟨e.fd, FanotifyEventResponse.Allow.as_libc⟩], [])
    ∧ detector_callback daemon_pid cache pid maybe_filename st reader_result =
        Except.ok ⟨FanotifyEventResponse.Allow, cache, false, false⟩ := by
  constructor
  · simp [monitor_listen_handle_event, hperm, hpid]
  · simp [detector_callback, hpid2]

/-- C2 witness: a concrete self-pid permission event, and a worker call with
the daemon pid where even a Match-returning detector result is bypassed. -/
theorem C2_self_pid_bypass_witness :
    monitor_listen_handle_event 7 ⟨FAN_OPEN_PERM, 4, 7⟩ =
        ([⟨4, FanotifyEventResponse.Allow.as_libc⟩], [])
    ∧ detector_callback 9 [] 9 (some "/tmp/f") none (Except.ok DetectionResult.Match) =
        Except.ok ⟨FanotifyEventResponse.Allow, [], false, false⟩ :=
  C2_self_pid_bypass 7 ⟨FAN_OPEN_PERM, 4, 7⟩ (by decide) rfl 9 [] 9 (some "/tmp/f")
    none (Except.ok DetectionResult.Match) (by decide)

/-- C1 counterexample: a permission-bearing event from a foreign pid whose
decision path panics inside the response callback produces no
fanotify_response write at all — the MonitorResponder unwinds before the
write — refuting "exactly one response regardless of panic". -/
theorem C1_exactly_one_write_counterexample :
    ((⟨FAN_OPEN_PERM, 5, 100⟩ : fanotify_event_metadata).mask &&& FANOTIFY_PERM_EVENTS > 0)
    ∧ event_response_writes 1 (fun _ => none) ⟨FAN_OPEN_PERM, 5, 100⟩ = ([], true) := by
  decide

/-- C1 (amended): for every permission-bearing event accepted by the event
loop, exactly one fanotify_response with the event fd is written whenever
the decision path returns a verdict — by the self-pid fast path, or by the
MonitorResponder after the response callback returns — but when the response
callback panics the responder dies before writing and no response record is
written for the event. -/
theorem C1_exactly_one_write_amended (mypid : Int)
    (cb : fanotify_event_metadata → Option FanotifyEventResponse)
    (e : fanotify_event_metadata) (hperm : e.mask &&& FANOTIFY_PERM_EVENTS > 0) :
    (e.pid = mypid →
      event_response_writes mypid cb e = ([⟨e.fd, FAN_ALLOW⟩], false))
    ∧ (∀ r, e.pid ≠ mypid → cb e = some r →
      event_response_writes mypid cb e = ([⟨e.fd, r.as_libc⟩], false))
    ∧ (e.pid ≠ mypid → cb e = none →
      event_response_writes mypid cb e = ([], true)) := by
  refine ⟨?_, ?_, ?_⟩
  · intro hp
    simp [event_response_writes, monitor_listen_handle_event, hperm, hp,
      FanotifyEventResponse.as_libc, FAN_ALLOW]
  · intro r hp hcb
    simp [event_response_writes, monitor_listen_handle_event,
      MonitorResponder.handle, hperm, hp, hcb]
  · intro hp hcb
    simp [event_response_writes, monitor_listen_handle_event,
      MonitorResponder.handle, hperm, hp, hcb]

/-- C1 amended witness: the fast path writes one Allow record, a returning
callback yields one record with the callback verdict, a panicking callback
yields no record. -/
theorem C1_exactly_one_write_amended_witness :
    event_response_writes 7 (fun _ => some FanotifyEventResponse.Deny)
        ⟨FAN_OPEN_PERM, 3, 7⟩ = ([⟨3, FAN_ALLOW⟩], false)
    ∧ event_response_writes 7 (fun _ => some FanotifyEventResponse.Deny)
        ⟨FAN_OPEN_PERM, 3, 8⟩ = ([⟨3, FanotifyEventResponse.Deny.as_libc⟩], false)
    ∧ event_response_writes 7 (fun _ => none) ⟨FAN_OPEN_PERM, 3, 8⟩ = ([], true) := by
  refine ⟨?_, ?_, ?_⟩
  · exact (C1_exactly_one_write_amended 7 _ _ (by decide)).1 rfl
  · exact (C1_exactly_one_write_amended 7 _ _ (by decide)).2.1
      FanotifyEventResponse.Deny (by decide) rfl
  · exact (C1_exactly_one_write_amended 7 _ _ (by decide)).2.2 (by decide) rfl

set_option maxRecDepth 20000 in
/-- C8: the claim fails on the code: check_reader feeds the hash algorithm
the WHOLE 1 KiB buffer after every read, not only the bytes just read, so
for the one-byte input 0xAA the algorithm is fed 1024 bytes (the byte plus
1023 stale zeroes), and a hash algorithm whose value depends on the fed
bytes makes check_reader and check_bytes disagree on the same content. -/
theorem C8_check_reader_feeds_whole_buffer :
    check_reader_fed [170] = 170 :: List.replicate 1023 0
    ∧ check_bytes ⟨fun bs => some bs.length⟩
        (fun h => Except.ok
          (if h = 1 then DetectionResult.Match else DetectionResult.NoMatch, 0))
        [170] = Except.ok DetectionResult.Match
    ∧ check_reader ⟨fun bs => some bs.length⟩
        (fun h => Except.ok
          (if h = 1 then DetectionResult.Match else DetectionResult.NoMatch, 0))
        [170] = Except.ok DetectionResult.NoMatch := by
  refine ⟨by decide, rfl, ?_⟩
  have hlen : (check_reader_fed [170]).length = 1024 := by decide
  simp [check_reader, hlen, Except.map]

/-- C9: quarantining a file via add_file and restoring it via restore_entry,
looked up through the listed entries by original path, puts a file back at
the original absolute path whose content, uid, gid and mode equal the values
recorded at add time (identical to the original file), and removes both the
payload and its sidecar from the quarantine directory. -/
theorem C9_quarantine_roundtrip (fs : FileSystem) (q0 : List StoredQuarantineEntry)
    (p : String) (f : FSFile) (fresh_id : String)
    (hf : assocLookup fs p = some f)
    (hq0 : ∀ e ∈ q0, e.info.original_path ≠ p) :
    get_entry_by_name (add_file fs q0 p fresh_id).2 p =
      some ⟨p, f.uid, f.gid, f.mode⟩
    ∧ restore_entry (add_file fs q0 p fresh_id).1 (add_file fs q0 p fresh_id).2
        ⟨p, f.uid, f.gid, f.mode⟩
      = (fsInsert (fsRemove fs p) p f, q0)
    ∧ assocLookup (fsInsert (fsRemove fs p) p f) p = some f := by
  obtain ⟨fc, fu, fg, fm⟩ := f
  have hne2 : ∀ x ∈ q0, x.info ≠ (⟨p, fu, fg, fm⟩ : QuarantineEntryInfo) := by
    intro x hx hinfo
    exact hq0 x hx (by rw [hinfo])
  have hadd1 : (add_file fs q0 p fresh_id).1 = fsRemove fs p := by
    simp [add_file, hf]
  have hadd2 : (add_file fs q0 p fresh_id).2 =
      q0 ++ [⟨fresh_id, ⟨p, fu, fg, fm⟩, ⟨fc, fu, fg, chmodMode fm 0⟩⟩] := by
    simp [add_file, hf]
  refine ⟨?_, ?_, assocLookup_fsInsert_self (fsRemove fs p) p ⟨fc, fu, fg, fm⟩⟩
  · rw [hadd2]
    unfold get_entry_by_name get_stored_entries
    rw [find?_append_of_left_false _ q0 _
      (fun x hx => decide_eq_false (hq0 x hx))]
    simp [List.find?]
  · rw [hadd1, hadd2]
    unfold restore_entry get_stored_entries
    rw [find?_append_of_left_false _ q0 _
      (fun x hx => decide_eq_false (hne2 x hx))]
    have hrm := removeFirstByInfo_append_of_none q0
      ⟨fresh_id, ⟨p, fu, fg, fm⟩, ⟨fc, fu, fg, chmodMode fm 0⟩⟩
      ⟨p, fu, fg, fm⟩ hne2 rfl
    simp only [List.find?, decide_True, List.find?_cons_of_pos]
    simp [hrm, chmodMode_roundtrip]

/-- C9 witness: a concrete file quarantined out of a one-file filesystem and
restored, ending with the identical file back at its path and an empty
quarantine directory. -/
theorem C9_quarantine_roundtrip_witness :
    get_entry_by_name
        (add_file [("/bin/x", ⟨[7, 7], 0, 0, 33261⟩)] [] "/bin/x" "u1").2 "/bin/x" =
      some ⟨"/bin/x", 0, 0, 33261⟩
    ∧ restore_entry (add_file [("/bin/x", ⟨[7, 7], 0, 0, 33261⟩)] [] "/bin/x" "u1").1
        (add_file [("/bin/x", ⟨[7, 7], 0, 0, 33261⟩)] [] "/bin/x" "u1").2
        ⟨"/bin/x", 0, 0, 33261⟩
      = (fsInsert (fsRemove [("/bin/x", ⟨[7, 7], 0, 0, 33261⟩)] "/bin/x") "/bin/x"
          ⟨[7, 7], 0, 0, 33261⟩, [])
    ∧ assocLookup (fsInsert (fsRemove [("/bin/x", ⟨[7, 7], 0, 0, 33261⟩)] "/bin/x")
        "/bin/x" ⟨[7, 7], 0, 0, 33261⟩) "/bin/x" = some ⟨[7, 7], 0, 0, 33261⟩ :=
  C9_quarantine_roundtrip [("/bin/x", ⟨[7, 7], 0, 0, 33261⟩)] [] "/bin/x"
    ⟨[7, 7], 0, 0, 33261⟩ "u1" rfl (by simp)

end Simbiota
